import Mathlib

/-!
Verification of the ISLE-compilation driver binary
(`src/build_support/isle_compile.rs`).

The driver reads the process argument vector, requires at least one input
file beyond the program name, builds a fixed `CodegenOptions` value, calls
the external cranelift-isle library once via `compile::from_files`, and
prints either the generated code (stdout, exit 0) or the error collection
(stderr, exit 1).

Modelling choices:
  * The argument vector is a `List String`; the external library call
    `cranelift_isle::compile::from_files` and the Debug rendering used by
    the interpolation in the failing branch are opaque collaborators, so
    both are parameters of the embedded `main`.
  * A Rust panic (here only possible via the `args[0]` index on an empty
    argument vector) is modelled as the outcome `Option.none`.
  * Every invocation of the external compiler is logged, together with the
    file list and options it received, in the `calls` field of the run.
-/

namespace IsleCompile

/-- Code-generation targets of the external cranelift-isle library.  The
driver fixes the target to `Zig`. -/
inductive CodegenTarget where
  | Zig
  | Rust
  deriving DecidableEq, Repr

/-- Mirrors `cranelift_isle::codegen::CodegenOptions` as constructed by the
driver: a target, the pragma-exclusion flag, and a list of prefixes. -/
structure CodegenOptions where
  target : CodegenTarget
  exclude_global_allow_pragmas : Bool
  prefixes : List String
  deriving DecidableEq, Repr

/-- One opaque error record of the external compiler.  The driver never
inspects its structure; it only feeds the whole collection to the Debug
rendering. -/
structure ErrRecord where
  msg : String
  deriving DecidableEq, Repr

/-- Observable effect of a terminated process: accumulated standard output,
accumulated standard error, and the exit status. -/
structure ProcResult where
  stdout : String
  stderr : String
  exitCode : Nat
  deriving DecidableEq, Repr

/-- One run of the driver: the terminal outcome (`none` models a Rust
panic) together with the log of external-compiler invocations, each with
the file list and options passed. -/
structure Run where
  outcome : Option ProcResult
  calls : List (List String × CodegenOptions)
  deriving DecidableEq, Repr

/-- The fixed options value built by the driver (lines 17-21 of the
source): Zig target, pragmas included, no prefixes. -/
def options : CodegenOptions :=
  { target := CodegenTarget.Zig
    exclude_global_allow_pragmas := false
    prefixes := [] }

/-- The usage line printed by `eprintln!` on the usage-error branch,
including the trailing newline the macro appends. -/
def usageMessage (prog : String) : String :=
  "Usage: " ++ prog ++ " <input.isle> [<input2.isle> ...]\n"

/-- The fixed header line printed on the compilation-failure branch. -/
def failureHeader : String := "ISLE compilation failed:\n"

/-- Result dispatch of the driver (the `match` on the `from_files` result
in lines 23-32 of the source): on `Ok`, `println!` writes the generated
code plus one newline and the process falls off `main` with exit status 0;
on `Err`, two `eprintln!` calls write the header line and the Debug
rendering of the errors, and the process exits with status 1.  The
`input_files` argument is recorded only so that runs remember what the
single compiler call received. -/
def dispatch (fmtDebug : List ErrRecord → String) (input_files : List String)
    (res : Except (List ErrRecord) String) : Run :=
  match res with
  | Except.ok generated_code =>
      { outcome := some { stdout := generated_code ++ "\n", stderr := "", exitCode := 0 }
        calls := [(input_files, options)] }
  | Except.error errors =>
      { outcome := some
          { stdout := ""
            stderr := failureHeader ++ fmtDebug errors ++ "\n"
            exitCode := 1 }
        calls := [(input_files, options)] }

/-- Shallow embedding of `fn main` of `src/build_support/isle_compile.rs`.
`from_files` models `cranelift_isle::compile::from_files`; `fmtDebug`
models the Debug rendering applied to the error collection.  The branches
follow the source line by line: the `args.len() < 2` guard with the
`args[0]` index in its usage message and `exit(1)`, `args[1..].to_vec()`
as the file list, and the single `from_files` call whose result goes to
`dispatch`. -/
def main (from_files : List String → CodegenOptions → Except (List ErrRecord) String)
    (fmtDebug : List ErrRecord → String) (args : List String) : Run :=
  if args.length < 2 then
    match args.get? 0 with
    | none =>
        { outcome := none, calls := [] }
    | some prog =>
        { outcome := some { stdout := "", stderr := usageMessage prog, exitCode := 1 }
          calls := [] }
  else
    let input_files := args.drop 1
    dispatch fmtDebug input_files (from_files input_files options)

/-- Unfolding equation for `main` below the argument-count guard. -/
theorem main_ge_eq
    (ff : List String → CodegenOptions → Except (List ErrRecord) String)
    (fd : List ErrRecord → String) (args : List String)
    (h2 : 2 ≤ args.length) :
    main ff fd args = dispatch fd (args.drop 1) (ff (args.drop 1) options) := by
  unfold main
  rw [if_neg (Nat.not_lt.mpr h2)]

/-- Unfolding equation for `main` on the usage branch: the result does not
depend on the compiler or the renderer. -/
theorem main_lt_eq
    (ff : List String → CodegenOptions → Except (List ErrRecord) String)
    (fd : List ErrRecord → String) (args : List String)
    (hlt : args.length < 2) :
    main ff fd args =
      match args.get? 0 with
      | none => { outcome := none, calls := [] }
      | some prog =>
          { outcome := some { stdout := "", stderr := usageMessage prog, exitCode := 1 }
            calls := [] } := by
  unfold main
  rw [if_pos hlt]

/-- Claim C1: when the external compiler returns generated code, the driver
writes exactly that string plus one trailing newline to standard output,
writes nothing to standard error, and exits with status 0. -/
theorem c1_success_output
    (ff : List String → CodegenOptions → Except (List ErrRecord) String)
    (fd : List ErrRecord → String) (args : List String)
    (h2 : 2 ≤ args.length) (code : String)
    (hok : ff (args.drop 1) options = Except.ok code) :
    (main ff fd args).outcome =
      some { stdout := code ++ "\n", stderr := "", exitCode := 0 } := by
  rw [main_ge_eq _ _ _ h2, hok]
  rfl

/-- Witness for C1 at the concrete invocation `["prog", "a.isle"]` with a
compiler returning the code `"gen"`. -/
theorem c1_success_output_witness :
    (main (fun _ _ => Except.ok "gen") (fun _ => "") ["prog", "a.isle"]).outcome =
      some { stdout := "gen\n", stderr := "", exitCode := 0 } :=
  c1_success_output _ _ _ (by decide) "gen" rfl

/-- Claim C2: with an invocation name present but no input files (argument
count at least 1 and below 2), the driver writes the usage message built
from argument 0 and the pattern to standard error, writes nothing to
standard output, never calls the external compiler, and exits 1. -/
theorem c2_usage_error
    (ff : List String → CodegenOptions → Except (List ErrRecord) String)
    (fd : List ErrRecord → String) (args : List String)
    (h1 : 1 ≤ args.length) (h2 : args.length < 2) :
    (main ff fd args).calls = [] ∧
    (main ff fd args).outcome = some
      { stdout := ""
        stderr := "Usage: " ++ args.headI ++ " <input.isle> [<input2.isle> ...]\n"
        exitCode := 1 } := by
  obtain ⟨a, t, rfl⟩ := List.exists_cons_of_ne_nil (List.ne_nil_of_length_pos h1)
  obtain rfl : t = [] := by
    cases t with
    | nil => rfl
    | cons b t =>
        exfalso
        simp only [List.length_cons] at h2
        omega
  exact ⟨rfl, rfl⟩

/-- Witness for C2 at the concrete invocation `["prog"]`. -/
theorem c2_usage_error_witness :
    (main (fun _ _ => Except.ok "gen") (fun _ => "") ["prog"]).calls = [] ∧
    (main (fun _ _ => Except.ok "gen") (fun _ => "") ["prog"]).outcome = some
      { stdout := ""
        stderr := "Usage: " ++ (["prog"] : List String).headI ++
          " <input.isle> [<input2.isle> ...]\n"
        exitCode := 1 } :=
  c2_usage_error _ _ _ (by decide) (by decide)

/-- Claim C3: when the external compiler returns an error collection, the
driver writes the fixed header line and then the rendering of the full
collection on the next line of standard error, writes nothing to standard
output, and exits 1. -/
theorem c3_compile_failure
    (ff : List String → CodegenOptions → Except (List ErrRecord) String)
    (fd : List ErrRecord → String) (args : List String)
    (h2 : 2 ≤ args.length) (errs : List ErrRecord)
    (herr : ff (args.drop 1) options = Except.error errs) :
    (main ff fd args).outcome = some
      { stdout := ""
        stderr := "ISLE compilation failed:\n" ++ fd errs ++ "\n"
        exitCode := 1 } := by
  rw [main_ge_eq _ _ _ h2, herr]
  rfl

/-- Witness for C3 at `["prog", "a.isle"]` with a compiler returning one
error record rendered as `"boom"`. -/
theorem c3_compile_failure_witness :
    (main (fun _ _ => Except.error [ErrRecord.mk "boom"])
       (fun es => String.join (es.map ErrRecord.msg)) ["prog", "a.isle"]).outcome = some
      { stdout := ""
        stderr := "ISLE compilation failed:\n" ++
          String.join ([ErrRecord.mk "boom"].map ErrRecord.msg) ++ "\n"
        exitCode := 1 } :=
  c3_compile_failure _ _ _ (by decide) [ErrRecord.mk "boom"] rfl

/-- Claim C4: whenever at least one input file is supplied, the file list
handed to the external compiler is exactly the argument vector from index
1 onward, in order and unmodified. -/
theorem c4_args_passed_verbatim
    (ff : List String → CodegenOptions → Except (List ErrRecord) String)
    (fd : List ErrRecord → String) (args : List String)
    (h2 : 2 ≤ args.length) :
    (main ff fd args).calls.map Prod.fst = [args.drop 1] := by
  rw [main_ge_eq _ _ _ h2]
  cases ff (args.drop 1) options <;> rfl

/-- Witness for C4 at the concrete invocation `["prog", "a", "b"]`. -/
theorem c4_args_passed_verbatim_witness :
    (main (fun _ _ => Except.ok "gen") (fun _ => "") ["prog", "a", "b"]).calls.map Prod.fst =
      [["a", "b"]] :=
  c4_args_passed_verbatim _ _ _ (by decide)

/-- Claim C5: every compilation call receives the same fixed options value,
independent of the argument vector: Zig target, pragma exclusion off, and
an empty prefix list. -/
theorem c5_fixed_options
    (ff : List String → CodegenOptions → Except (List ErrRecord) String)
    (fd : List ErrRecord → String) (args : List String)
    (h2 : 2 ≤ args.length) :
    (main ff fd args).calls.map Prod.snd =
      [{ target := CodegenTarget.Zig, exclude_global_allow_pragmas := false, prefixes := [] }] := by
  rw [main_ge_eq _ _ _ h2]
  cases ff (args.drop 1) options <;> rfl

/-- Witness for C5 at the concrete invocation `["prog", "a"]`. -/
theorem c5_fixed_options_witness :
    (main (fun _ _ => Except.ok "gen") (fun _ => "") ["prog", "a"]).calls.map Prod.snd =
      [{ target := CodegenTarget.Zig, exclude_global_allow_pragmas := false, prefixes := [] }] :=
  c5_fixed_options _ _ _ (by decide)

/-- Claim C6: on every failure path, usage error or compilation failure
alike, standard output stays empty. -/
theorem c6_failure_stdout_empty
    (ff : List String → CodegenOptions → Except (List ErrRecord) String)
    (fd : List ErrRecord → String) (args : List String) (r : ProcResult)
    (ho : (main ff fd args).outcome = some r) (hfail : r.exitCode ≠ 0) :
    r.stdout = "" := by
  rcases args with _ | ⟨a, rest⟩
  · rw [show (main ff fd []).outcome = none from rfl] at ho
    exact Option.noConfusion ho
  · rcases rest with _ | ⟨b, rest2⟩
    · obtain rfl : _ = r := Option.some_injective _ ho
      rfl
    · rw [main_ge_eq _ _ _ (by simp)] at ho
      cases hff : ff ((a :: b :: rest2).drop 1) options <;> rw [hff] at ho <;>
          obtain rfl : _ = r := Option.some_injective _ ho <;>
        first
        | rfl
        | exact absurd rfl hfail

/-- Witness for C6 at the usage failure of the invocation `["prog"]`. -/
theorem c6_failure_stdout_empty_witness :
    ({ stdout := ""
       stderr := usageMessage "prog"
       exitCode := 1 } : ProcResult).stdout = "" :=
  c6_failure_stdout_empty (fun _ _ => Except.ok "gen") (fun _ => "") ["prog"] _
    rfl (by decide)

/-- Claim C7: the external compiler is invoked at most once on every run,
and exactly once when the argument count is at least 2; no retry ever
happens. -/
theorem c7_compiler_called_at_most_once
    (ff : List String → CodegenOptions → Except (List ErrRecord) String)
    (fd : List ErrRecord → String) (args : List String) :
    (main ff fd args).calls.length ≤ 1 ∧
    (2 ≤ args.length → (main ff fd args).calls.length = 1) := by
  rcases args with _ | ⟨a, rest⟩
  · exact ⟨Nat.zero_le 1, fun h2 => absurd h2 (by simp)⟩
  · rcases rest with _ | ⟨b, rest2⟩
    · exact ⟨Nat.zero_le 1, fun h2 => absurd h2 (by simp)⟩
    · rw [main_ge_eq _ _ _ (by simp)]
      cases ff ((a :: b :: rest2).drop 1) options <;>
        exact ⟨Nat.le_refl 1, fun _ => rfl⟩

/-- Witness for C7 at the concrete invocation `["prog", "a"]`. -/
theorem c7_compiler_called_at_most_once_witness :
    (main (fun _ _ => Except.ok "gen") (fun _ => "") ["prog", "a"]).calls.length ≤ 1 ∧
    (main (fun _ _ => Except.ok "gen") (fun _ => "") ["prog", "a"]).calls.length = 1 :=
  ⟨(c7_compiler_called_at_most_once _ _ _).1,
   (c7_compiler_called_at_most_once (fun _ _ => Except.ok "gen") (fun _ => "")
      ["prog", "a"]).2 (by decide)⟩

/-- Claim C8: the observable behaviour of a run depends only on the
argument vector and on the result the external compiler returns for the
files and options the driver passes it: two compilers agreeing on that
result produce identical runs, and no other ambient input exists in the
model. -/
theorem c8_result_determines_behavior
    (ffa ffb : List String → CodegenOptions → Except (List ErrRecord) String)
    (fd : List ErrRecord → String) (args : List String)
    (h : ffa (args.drop 1) options = ffb (args.drop 1) options) :
    main ffa fd args = main ffb fd args := by
  by_cases hlt : args.length < 2
  · rw [main_lt_eq _ _ _ hlt, main_lt_eq _ _ _ hlt]
  · rw [main_ge_eq _ _ _ (Nat.not_lt.mp hlt), main_ge_eq _ _ _ (Nat.not_lt.mp hlt), h]

/-- Witness for C8: two syntactically different compilers returning the
same result yield the same run on `["prog", "a"]`. -/
theorem c8_result_determines_behavior_witness :
    main (fun _ _ => Except.ok "gen") (fun _ => "") ["prog", "a"] =
      main (fun files _ => Except.ok (String.join (files.map (fun _ => "gen"))))
        (fun _ => "") ["prog", "a"] :=
  c8_result_determines_behavior _ _ _ _ rfl

/-- Claim C9: the usage branch indexes argument 0, which is in bounds, and
cannot panic, whenever the argument vector is non-empty; on the empty
argument vector, which also satisfies the guard, the index is out of
bounds and the run panics. -/
theorem c9_argv0_indexing
    (ff : List String → CodegenOptions → Except (List ErrRecord) String)
    (fd : List ErrRecord → String) :
    (∀ args : List String, 1 ≤ args.length → args.length < 2 →
      (main ff fd args).outcome.isSome) ∧
    (main ff fd []).outcome = none := by
  refine ⟨fun args h1 h2 => ?_, rfl⟩
  obtain ⟨a, t, rfl⟩ := List.exists_cons_of_ne_nil (List.ne_nil_of_length_pos h1)
  rw [main_lt_eq _ _ _ h2]
  rfl

/-- Witness for C9: the usage branch of `["prog"]` does not panic while the
empty argument vector makes the run panic. -/
theorem c9_argv0_indexing_witness :
    (main (fun _ _ => Except.ok "gen") (fun _ => "") ["prog"]).outcome.isSome ∧
    (main (fun _ _ => Except.ok "gen") (fun _ => "") []).outcome = none :=
  ⟨(c9_argv0_indexing _ _).1 ["prog"] (by decide) (by decide),
   (c9_argv0_indexing (fun _ _ => Except.ok "gen") (fun _ => "")).2⟩

/-- Claim C10: even when the external compiler returns an empty error
collection, violating its contract, the driver still writes the header and
the rendering of the empty collection to standard error, keeps standard
output empty, and exits 1. -/
theorem c10_empty_error_collection
    (ff : List String → CodegenOptions → Except (List ErrRecord) String)
    (fd : List ErrRecord → String) (args : List String)
    (h2 : 2 ≤ args.length)
    (herr : ff (args.drop 1) options = Except.error []) :
    (main ff fd args).outcome = some
      { stdout := ""
        stderr := "ISLE compilation failed:\n" ++ fd [] ++ "\n"
        exitCode := 1 } := by
  rw [main_ge_eq _ _ _ h2, herr]
  rfl

/-- Witness for C10 at `["prog", "a"]` with a compiler returning the empty
error collection, rendered as `"[]"`. -/
theorem c10_empty_error_collection_witness :
    (main (fun _ _ => Except.error []) (fun _ => "[]") ["prog", "a"]).outcome = some
      { stdout := ""
        stderr := "ISLE compilation failed:\n" ++ "[]" ++ "\n"
        exitCode := 1 } :=
  c10_empty_error_collection _ _ _ (by decide) rfl

end IsleCompile

